import Mathlib

/-! Shallow embedding of the go-agents conversation orchestrator
    (src/agent.go, src/message.go, src/tools.go) together with theorems
    checking the repository's specification against the code.

    Modelling conventions:
    * Go int64 token counts become Int (no claim here depends on wrap-around).
    * The remote completion endpoint, the JSON argument decoder
      (encoding/json.Unmarshal into map[string]any) and the JSON marshalling of
      a tool result are external collaborators; they enter the model as
      oracles: a Service function keyed by remote-call index and outbound
      message list, an ArgDecoder function, and a marshalling outcome stored
      inside the tool's result value.
    * Calling a method on a nil Go interface value panics at run time; the
      model makes that outcome explicit as a panicked result instead of
      silently skipping, mirroring Go semantics.
    * The goroutine plus unbuffered channel of StreamChatCompletion is
      modelled as the ordered list of channel operations the goroutine
      performs: one send per emitted Response and the single close executed by
      the deferred close on every exit path. -/

/-- Token usage counts, src/message.go (int64 fields modelled as Int). -/
structure Usage where
  promptTokens : Int := 0
  completionTokens : Int := 0
  totalTokens : Int := 0
deriving DecidableEq

/-- Componentwise addition as performed by the += statements in
    src/agent.go ChatCompletion. -/
def addUsage (a b : Usage) : Usage :=
  ⟨a.promptTokens + b.promptTokens, a.completionTokens + b.completionTokens,
   a.totalTokens + b.totalTokens⟩

/-- Go type ResponseKind string, src/message.go. -/
abbrev ResponseKind := String

def ResponseKindContent : ResponseKind := "content"

def ResponseKindUsage : ResponseKind := "usage"

def ResponseKindError : ResponseKind := "error"

/-- src/message.go Response: one struct with a kind tag and one hidden payload
    per kind; Go zero values are the defaults (nil error becomes none). -/
structure Response where
  kind : ResponseKind
  content : String := ""
  err : Option String := none
  usage : Usage := {}
deriving DecidableEq

def Response.IsContentResponse (r : Response) : Bool :=
  r.kind == ResponseKindContent

def Response.IsUsageResponse (r : Response) : Bool :=
  r.kind == ResponseKindUsage

def Response.IsErrorResponse (r : Response) : Bool :=
  r.kind == ResponseKindError

/-- src/message.go Response.Usage: zero value on kind mismatch. -/
def Response.Usage (r : Response) : Usage :=
  if r.kind != ResponseKindUsage then {} else r.usage

/-- src/message.go Response.Content: zero value on kind mismatch. -/
def Response.Content (r : Response) : String :=
  if r.kind != ResponseKindContent then "" else r.content

/-- src/message.go Response.Error: nil on kind mismatch. -/
def Response.Error (r : Response) : Option String :=
  if r.kind != ResponseKindError then none else r.err

def NewContentResponse (content : String) : Response :=
  { kind := ResponseKindContent, content := content }

def NewUsageResponse (usage : Usage) : Response :=
  { kind := ResponseKindUsage, usage := usage }

def NewErrorResponse (e : String) : Response :=
  { kind := ResponseKindError, err := some e }

/-- Go type MessageKind string, src/message.go. -/
abbrev MessageKind := String

def MessageKindText : MessageKind := "text"

def MessageKindFile : MessageKind := "file"

/-- Modelled from the spec: the image message kind (§3) referenced by
    src/agent.go convertMessages; its declaration is not among the files under
    src. -/
def MessageKindImage : MessageKind := "image"

/-- Go type Role string, src/message.go. -/
abbrev Role := String

def RoleUser : Role := "user"

def RoleAssistant : Role := "assistant"

def RoleSystem : Role := "system"

/-- src/message.go File: binary blob plus name. -/
structure File where
  data : List Nat := []
  name : String := ""
deriving DecidableEq

/-- Modelled from the spec: image payload (binary blob plus name, §3) used by
    UserImageMessage; its declaration is not among the files under src. -/
structure Image where
  data : List Nat := []
  name : String := ""
deriving DecidableEq

/-- src/message.go Message: role, kind tag, and one hidden payload per kind. -/
structure Message where
  role : Role
  kind : MessageKind
  text : String := ""
  file : File := {}
  image : Image := {}
deriving DecidableEq

def Message.IsText (m : Message) : Bool :=
  m.kind == MessageKindText

def Message.IsFile (m : Message) : Bool :=
  m.kind == MessageKindFile

/-- src/message.go Message.Text: zero value on kind mismatch. -/
def Message.Text (m : Message) : String :=
  if m.kind != MessageKindText then "" else m.text

/-- src/message.go Message.File: zero value on kind mismatch. -/
def Message.File (m : Message) : File :=
  if m.kind != MessageKindFile then {} else m.file

/-- Modelled from the spec: image accessor with the same
    zero-value-on-mismatch contract as Text and File (§3); referenced by
    src/agent.go convertMessages but not declared under src. -/
def Message.Image (m : Message) : Image :=
  if m.kind != MessageKindImage then {} else m.image

def UserTextMessage (text : String) : Message :=
  { role := RoleUser, kind := MessageKindText, text := text }

def UserFileMessage (file : File) : Message :=
  { role := RoleUser, kind := MessageKindFile, file := file }

/-- Modelled from the spec: user image constructor used by the repository's
    tests; not declared under src. -/
def UserImageMessage (image : Image) : Message :=
  { role := RoleUser, kind := MessageKindImage, image := image }

def AssistantTextMessage (content : String) : Message :=
  { role := RoleAssistant, kind := MessageKindText, text := content }

def SystemMessage (text : String) : Message :=
  { role := RoleSystem, kind := MessageKindText, text := text }

/-- Model of the decoded map[string]any tool arguments: opaque to the
    orchestrator, which passes them verbatim to Execute. -/
abbrev Args := List (String × String)

/-- src/tools.go Parameters (property values opaque to the orchestrator). -/
structure Parameters where
  properties : List (String × String) := []
  required : List String := []
deriving DecidableEq

/-- Result of a tool's Execute as the orchestrator observes it: either a Go
    string used verbatim, or any other value together with the outcome of the
    json.Marshal collaborator applied to it (src/agent.go lines 210-225). -/
inductive ToolResult where
  | str (s : String)
  | other (marshalled : Except String String)

/-- src/tools.go Tool interface (Name, Description, Parameters, Execute). -/
structure Tool where
  name : String
  description : String := ""
  parameters : Parameters := {}
  execute : Args → Except String ToolResult

/-- src/agent.go Agent configuration (the HTTP client collaborator is out of
    scope). Go's int maxIterations is a Nat: a for-range loop over a
    non-positive count runs zero iterations. -/
structure Agent where
  model : String
  tools : List Tool := []
  maxIterations : Nat := 100
  systemPrompt : String := ""
  instructions : String := ""

/-- src/agent.go AgentOption. -/
abbrev AgentOption := Agent → Agent

def WithSystemPrompt (prompt : String) : AgentOption :=
  fun a => { a with systemPrompt := prompt }

def WithInstructions (instructions : String) : AgentOption :=
  fun a => { a with instructions := instructions }

def WithTools (tools : List Tool) : AgentOption :=
  fun a => { a with tools := tools }

def WithMaxIterations (max : Nat) : AgentOption :=
  fun a => { a with maxIterations := max }

/-- src/agent.go NewAgent: defaults then applied options (apiKey and baseURL
    only configure the external client and are omitted). -/
def NewAgent (model : String) (opts : List AgentOption) : Agent :=
  opts.foldl (fun a opt => opt a)
    { model := model, tools := [], maxIterations := 100,
      systemPrompt := "", instructions := "" }

/-- One tool-call request inside a model reply (name, JSON argument string,
    call identifier), as read from the openai SDK reply. -/
structure ToolCall where
  id : String
  name : String
  arguments : String
deriving DecidableEq

/-- One outbound conversation turn (openai.ChatCompletionMessageParamUnion).
    File and image turns carry their payloads directly; the base64 wire
    encoding performed inside convertMessages belongs to the SDK collaborator.
    assistant is the model's own reply turn (ToParam), tool a tool-result turn
    keyed to the originating call identifier. -/
inductive ChatMsg where
  | system (text : String)
  | user (text : String)
  | userFile (file : File)
  | userImage (image : Image)
  | assistantText (text : String)
  | assistant (content : String) (toolCalls : List ToolCall)
  | tool (content : String) (callId : String)
deriving DecidableEq

/-- The message part of one reply choice. -/
structure ChoiceMessage where
  content : String := ""
  toolCalls : List ToolCall := []
deriving DecidableEq

structure Choice where
  message : ChoiceMessage
deriving DecidableEq

/-- One reply of the remote completion service. -/
structure Reply where
  choices : List Choice := []
  usage : Usage := {}
deriving DecidableEq

/-- The remote completion service collaborator: a deterministic oracle from
    remote-call index and outbound message list to one reply or a transport
    error. -/
abbrev Service := Nat → List ChatMsg → Except String Reply

/-- The json.Unmarshal collaborator decoding a call's argument payload. -/
abbrev ArgDecoder := String → Except String Args

/-- The turn list contributed by one caller message, src/agent.go
    convertMessages: switch on role, inner switch on kind for user messages
    (a user message of an unrecognized kind contributes no turn — the inner
    switch has no default branch). -/
def convertOne (msg : Message) : List ChatMsg :=
  if msg.role == RoleSystem then [ChatMsg.system msg.Text]
  else if msg.role == RoleAssistant then [ChatMsg.assistantText msg.Text]
  else if msg.role == RoleUser then
    (if msg.kind == MessageKindText then [ChatMsg.user msg.Text]
     else if msg.kind == MessageKindFile then [ChatMsg.userFile msg.File]
     else if msg.kind == MessageKindImage then [ChatMsg.userImage msg.Image]
     else [])
  else [ChatMsg.user msg.Text]

/-- src/agent.go convertMessages: each caller message in order. -/
def convertMessages : List Message → List ChatMsg
  | [] => []
  | msg :: rest => convertOne msg ++ convertMessages rest

/-- src/agent.go buildMessages: conditionally append the system prompt, then
    conditionally append the instructions as a user turn, then the converted
    caller messages. -/
def Agent.buildMessages (a : Agent) (messages : List Message) : List ChatMsg :=
  let chatMessages : List ChatMsg := []
  let chatMessages :=
    if a.systemPrompt != "" then chatMessages ++ [ChatMsg.system a.systemPrompt]
    else chatMessages
  let chatMessages :=
    if a.instructions != "" then chatMessages ++ [ChatMsg.user a.instructions]
    else chatMessages
  chatMessages ++ convertMessages messages

/-- Outcome of the tool-dispatch inner loop over one reply's tool calls,
    carrying the working history as extended so far. -/
inductive StepOut where
  | ok (messages : List ChatMsg)
  | err (messages : List ChatMsg) (e : String)
  | panicked (messages : List ChatMsg) (reason : String)
deriving DecidableEq

/-- The Go runtime message for a method call on a nil interface value. -/
def nilToolPanic : String := "invalid memory address or nil pointer dereference"

/-- The Go runtime message for an out-of-range slice index. -/
def indexPanic : String := "index out of range"

/-- src/agent.go lines 190-226, the per-call dispatch loop: linear lookup by
    name (first match or none), json.Unmarshal of the argument payload (its
    error returned before the tool is used), then Execute on the looked-up
    tool — a method call on the nil interface value when the lookup found
    nothing, which panics — then append one tool turn keyed to the call id,
    marshalling non-string results. -/
def processToolCalls (tools : List Tool) (decode : ArgDecoder)
    (messages : List ChatMsg) : List ToolCall → StepOut
  | [] => StepOut.ok messages
  | call :: rest =>
    let found := tools.find? (fun t => t.name == call.name)
    match decode call.arguments with
    | Except.error e => StepOut.err messages e
    | Except.ok args =>
      match found with
      | none => StepOut.panicked messages nilToolPanic
      | some tool =>
        match tool.execute args with
        | Except.error e => StepOut.err messages e
        | Except.ok (ToolResult.str v) =>
          processToolCalls tools decode (messages ++ [ChatMsg.tool v call.id]) rest
        | Except.ok (ToolResult.other (Except.ok data)) =>
          processToolCalls tools decode (messages ++ [ChatMsg.tool data call.id]) rest
        | Except.ok (ToolResult.other (Except.error e)) => StepOut.err messages e

/-- Result of the inner closure of the goroutine in StreamChatCompletion:
    nil, a returned error, or a runtime panic. -/
inductive InnerResult where
  | ok
  | err (e : String)
  | panicked (reason : String)
deriving DecidableEq

/-- Everything one run of the loop body produces: channel sends in order, the
    outbound request of every remote call in order, the usage of every
    successful reply in order, the number of remote calls, the final working
    history, and how the inner closure ended. -/
structure IterOut where
  sends : List Response := []
  requests : List (List ChatMsg) := []
  usages : List Usage := []
  calls : Nat := 0
  messages : List ChatMsg := []
  result : InnerResult := InnerResult.ok
deriving DecidableEq

/-- src/agent.go lines 162-231, the for-range loop over maxIterations: call
    the service, emit one Usage event, read the first choice (unguarded index,
    panics on an empty choice list), append the model turn when it carries
    content or tool calls, emit a Content event when it carries content, then
    either dispatch the tool calls and continue or break. -/
def runIter (tools : List Tool) (service : Service) (decode : ArgDecoder) :
    Nat → Nat → List ChatMsg → IterOut
  | 0, _, messages => { messages := messages }
  | fuel + 1, idx, messages =>
    match service idx messages with
    | Except.error e =>
      { requests := [messages], calls := 1, messages := messages,
        result := InnerResult.err e }
    | Except.ok reply =>
      match reply.choices with
      | [] =>
        { sends := [NewUsageResponse reply.usage], requests := [messages],
          usages := [reply.usage], calls := 1, messages := messages,
          result := InnerResult.panicked indexPanic }
      | choice :: _ =>
        let m := choice.message
        let hasToolCalls := !m.toolCalls.isEmpty
        let messages1 :=
          if m.content != "" || hasToolCalls
          then messages ++ [ChatMsg.assistant m.content m.toolCalls]
          else messages
        let contentSends :=
          if m.content != "" then [NewContentResponse m.content] else []
        if hasToolCalls then
          match processToolCalls tools decode messages1 m.toolCalls with
          | StepOut.ok messages2 =>
            let rest := runIter tools service decode fuel (idx + 1) messages2
            { sends := NewUsageResponse reply.usage :: contentSends ++ rest.sends,
              requests := messages :: rest.requests,
              usages := reply.usage :: rest.usages,
              calls := 1 + rest.calls,
              messages := rest.messages,
              result := rest.result }
          | StepOut.err messages2 e =>
            { sends := NewUsageResponse reply.usage :: contentSends,
              requests := [messages], usages := [reply.usage], calls := 1,
              messages := messages2, result := InnerResult.err e }
          | StepOut.panicked messages2 reason =>
            { sends := NewUsageResponse reply.usage :: contentSends,
              requests := [messages], usages := [reply.usage], calls := 1,
              messages := messages2, result := InnerResult.panicked reason }
        else
          { sends := NewUsageResponse reply.usage :: contentSends,
            requests := [messages], usages := [reply.usage], calls := 1,
            messages := messages1, result := InnerResult.ok }

/-- How one run ended. -/
inductive Outcome where
  | normal
  | errored (e : String)
  | panicked (reason : String)
deriving DecidableEq

/-- Observable trace of one StreamChatCompletion invocation. Events are the
    stream contents in order; on an inner error the goroutine sends one
    terminal Error event before the deferred close. -/
structure RunTrace where
  events : List Response
  outcome : Outcome
  calls : Nat
  requests : List (List ChatMsg)
  usages : List Usage
  finalMessages : List ChatMsg
deriving DecidableEq

/-- src/agent.go StreamChatCompletion: build the initial request, run the
    goroutine body, and surface an inner error as one terminal Error event. -/
def StreamChatCompletion (a : Agent) (service : Service) (decode : ArgDecoder)
    (messages : List Message) : RunTrace :=
  let out := runIter a.tools service decode a.maxIterations 0 (a.buildMessages messages)
  match out.result with
  | InnerResult.ok =>
    ⟨out.sends, Outcome.normal, out.calls, out.requests, out.usages, out.messages⟩
  | InnerResult.err e =>
    ⟨out.sends ++ [NewErrorResponse e], Outcome.errored e, out.calls,
     out.requests, out.usages, out.messages⟩
  | InnerResult.panicked reason =>
    ⟨out.sends, Outcome.panicked reason, out.calls, out.requests, out.usages,
     out.messages⟩

/-- One operation on the response channel. -/
inductive ChanOp where
  | send (r : Response)
  | close
deriving DecidableEq

def ChanOp.isClose : ChanOp → Bool
  | ChanOp.close => true
  | _ => false

/-- The channel operations the goroutine performs, in order: one send per
    event, then the single close executed by defer on every exit path (Go runs
    deferred calls during a panic unwind as well). -/
def runChanOps (a : Agent) (service : Service) (decode : ArgDecoder)
    (messages : List Message) : List ChanOp :=
  ((StreamChatCompletion a service decode messages).events.map ChanOp.send)
    ++ [ChanOp.close]

/-- Modelled from the spec: the Completion aggregate (§4.4) whose struct
    declaration is not among the files under src; its fields follow its uses
    in src/agent.go ChatCompletion, with Go zero values as defaults. -/
structure Completion where
  responses : List Response := []
  messages : List String := []
  usage : Usage := {}
deriving DecidableEq

/-- src/agent.go ChatCompletion lines 110-124, the fold over the consumed
    stream: append every response, accumulate usage, collect content texts,
    and on an Error event return a fresh zero Completion with that error. -/
def chatCompletionFold : Completion → List Response → Completion × Option String
  | acc, [] => (acc, none)
  | acc, r :: rest =>
    let acc1 := { acc with responses := acc.responses ++ [r] }
    let acc2 :=
      if r.IsUsageResponse then { acc1 with usage := addUsage acc1.usage r.Usage }
      else acc1
    let acc3 :=
      if r.IsContentResponse then { acc2 with messages := acc2.messages ++ [r.Content] }
      else acc2
    if r.IsErrorResponse then ({}, r.Error) else chatCompletionFold acc3 rest

/-- src/agent.go ChatCompletion: consume the whole stream of one run. -/
def ChatCompletion (a : Agent) (service : Service) (decode : ArgDecoder)
    (messages : List Message) : Completion × Option String :=
  chatCompletionFold {} (StreamChatCompletion a service decode messages).events

/-- Whether one tool call would dispatch cleanly: its name resolves, its
    arguments decode, its Execute succeeds and its result marshals. -/
def callOk (tools : List Tool) (decode : ArgDecoder) (call : ToolCall) : Bool :=
  match tools.find? (fun t => t.name == call.name) with
  | none => false
  | some tool =>
    match decode call.arguments with
    | Except.error _ => false
    | Except.ok args =>
      match tool.execute args with
      | Except.error _ => false
      | Except.ok (ToolResult.str _) => true
      | Except.ok (ToolResult.other (Except.ok _)) => true
      | Except.ok (ToolResult.other (Except.error _)) => false

/-- The text of the tool-result turn a cleanly dispatching call appends. -/
def callResultText (tools : List Tool) (decode : ArgDecoder) (call : ToolCall) : String :=
  match tools.find? (fun t => t.name == call.name) with
  | none => ""
  | some tool =>
    match decode call.arguments with
    | Except.error _ => ""
    | Except.ok args =>
      match tool.execute args with
      | Except.ok (ToolResult.str v) => v
      | Except.ok (ToolResult.other (Except.ok data)) => data
      | _ => ""

@[simp]
theorem isUsage_of_newUsage (u : Usage) :
    (NewUsageResponse u).IsUsageResponse = true := by
  simp [NewUsageResponse, Response.IsUsageResponse, ResponseKindUsage]

@[simp]
theorem isUsage_of_newContent (c : String) :
    (NewContentResponse c).IsUsageResponse = false := by
  simp [NewContentResponse, Response.IsUsageResponse, ResponseKindContent, ResponseKindUsage]

@[simp]
theorem isUsage_of_newError (e : String) :
    (NewErrorResponse e).IsUsageResponse = false := by
  simp [NewErrorResponse, Response.IsUsageResponse, ResponseKindError, ResponseKindUsage]

@[simp]
theorem isContent_of_newUsage (u : Usage) :
    (NewUsageResponse u).IsContentResponse = false := by
  simp [NewUsageResponse, Response.IsContentResponse, ResponseKindContent, ResponseKindUsage]

@[simp]
theorem isContent_of_newContent (c : String) :
    (NewContentResponse c).IsContentResponse = true := by
  simp [NewContentResponse, Response.IsContentResponse, ResponseKindContent]

@[simp]
theorem isContent_of_newError (e : String) :
    (NewErrorResponse e).IsContentResponse = false := by
  simp [NewErrorResponse, Response.IsContentResponse, ResponseKindContent, ResponseKindError]

@[simp]
theorem isError_of_newUsage (u : Usage) :
    (NewUsageResponse u).IsErrorResponse = false := by
  simp [NewUsageResponse, Response.IsErrorResponse, ResponseKindError, ResponseKindUsage]

@[simp]
theorem isError_of_newContent (c : String) :
    (NewContentResponse c).IsErrorResponse = false := by
  simp [NewContentResponse, Response.IsErrorResponse, ResponseKindContent, ResponseKindError]

@[simp]
theorem isError_of_newError (e : String) :
    (NewErrorResponse e).IsErrorResponse = true := by
  simp [NewErrorResponse, Response.IsErrorResponse, ResponseKindError]

@[simp]
theorem usage_of_newUsage (u : Usage) : (NewUsageResponse u).Usage = u := by
  simp [NewUsageResponse, Response.Usage, ResponseKindUsage]

@[simp]
theorem content_of_newContent (c : String) : (NewContentResponse c).Content = c := by
  simp [NewContentResponse, Response.Content, ResponseKindContent]

@[simp]
theorem error_of_newError (e : String) : (NewErrorResponse e).Error = some e := by
  simp [NewErrorResponse, Response.Error, ResponseKindError]

theorem runIter_inv (tools : List Tool) (service : Service) (decode : ArgDecoder) :
    ∀ (fuel idx : Nat) (messages : List ChatMsg),
      ((runIter tools service decode fuel idx messages).sends.filter
          (fun r => r.IsErrorResponse)) = []
      ∧ ((runIter tools service decode fuel idx messages).sends.filter
          (fun r => r.IsUsageResponse))
          = (runIter tools service decode fuel idx messages).usages.map NewUsageResponse
      ∧ (runIter tools service decode fuel idx messages).calls ≤ fuel
      ∧ (runIter tools service decode fuel idx messages).calls
          ≤ (runIter tools service decode fuel idx messages).usages.length + 1
      ∧ ((runIter tools service decode fuel idx messages).result = InnerResult.ok →
          (runIter tools service decode fuel idx messages).calls
            = (runIter tools service decode fuel idx messages).usages.length)
      ∧ (runIter tools service decode fuel idx messages).requests.length
          = (runIter tools service decode fuel idx messages).calls := by
  intro fuel
  induction fuel with
  | zero =>
    intro idx messages
    simp [runIter]
  | succ n ih =>
    intro idx messages
    simp only [runIter]
    cases hsvc : service idx messages with
    | error e => simp
    | ok reply =>
      obtain ⟨rchoices, rusage⟩ := reply
      cases rchoices with
      | nil => simp
      | cons choice tail =>
        dsimp only
        split
        · split
          · rename_i messages2 heq
            obtain ⟨h1, h2, h3, h4, h5, h6⟩ := ih (idx + 1) messages2
            refine ⟨?_, ?_, ?_, ?_, ?_, ?_⟩
            · simp only [List.filter_cons, List.filter_append]
              simp [h1]
            · simp only [List.filter_cons, List.filter_append]
              simp [h2]
            · simp
              all_goals omega
            · simp
              all_goals omega
            · simp
              intro hres
              have := h5 hres
              omega
            · simp
              omega
          · refine ⟨?_, ?_, ?_, ?_, ?_, ?_⟩ <;> simp
          · refine ⟨?_, ?_, ?_, ?_, ?_, ?_⟩ <;> simp
        · refine ⟨?_, ?_, ?_, ?_, ?_, ?_⟩ <;> simp

/-- The first outbound request of a run with at least one unit of fuel is the
    message list the loop started from. -/
theorem runIter_requests_head (tools : List Tool) (service : Service)
    (decode : ArgDecoder) (n idx : Nat) (messages : List ChatMsg) :
    (runIter tools service decode (n + 1) idx messages).requests.head?
      = some messages := by
  simp only [runIter]
  cases hsvc : service idx messages with
  | error e => simp
  | ok reply =>
    obtain ⟨rchoices, rusage⟩ := reply
    cases rchoices with
    | nil => simp
    | cons choice tail =>
      dsimp only
      split
      · split <;> simp
      · simp

/-- When every call in the list dispatches cleanly, the dispatch loop appends
    exactly one tool-result turn per call, in request order, keyed to each
    call's identifier. -/
theorem processToolCalls_all_ok (tools : List Tool) (decode : ArgDecoder) :
    ∀ (calls : List ToolCall) (messages : List ChatMsg),
      (∀ c ∈ calls, callOk tools decode c = true) →
      processToolCalls tools decode messages calls
        = StepOut.ok (messages ++
            calls.map (fun c => ChatMsg.tool (callResultText tools decode c) c.id)) := by
  intro calls
  induction calls with
  | nil =>
    intro messages h
    simp [processToolCalls]
  | cons c rest ih =>
    intro messages h
    have hc := h c (by simp)
    have hrest : ∀ x ∈ rest, callOk tools decode x = true := by
      intro x hx
      exact h x (by simp [hx])
    simp only [processToolCalls]
    cases hf : tools.find? (fun t => t.name == c.name) with
    | none => simp [callOk, hf] at hc
    | some tool =>
      cases hd : decode c.arguments with
      | error e => simp [callOk, hf, hd] at hc
      | ok args =>
        cases he : tool.execute args with
        | error e => simp [callOk, hf, hd, he] at hc
        | ok tr =>
          cases tr with
          | str v =>
            simp only [hf, hd, he]
            rw [ih _ hrest]
            simp [callResultText, hf, hd, he]
          | other mr =>
            cases mr with
            | ok data =>
              simp only [hf, hd, he]
              rw [ih _ hrest]
              simp [callResultText, hf, hd, he]
            | error e => simp [callOk, hf, hd, he] at hc

/-- The only panic the dispatch loop can raise is the nil-interface method
    call on an unresolved tool name. -/
theorem processToolCalls_panic_reason (tools : List Tool) (decode : ArgDecoder) :
    ∀ (calls : List ToolCall) (messages m : List ChatMsg) (r : String),
      processToolCalls tools decode messages calls = StepOut.panicked m r →
      r = nilToolPanic := by
  intro calls
  induction calls with
  | nil =>
    intro messages m r h
    simp [processToolCalls] at h
  | cons c rest ih =>
    intro messages m r h
    simp only [processToolCalls] at h
    cases hd : decode c.arguments with
    | error e => simp [hd] at h
    | ok args =>
      cases hf : tools.find? (fun t => t.name == c.name) with
      | none =>
        simp [hd, hf] at h
        exact h.2.symm
      | some tool =>
        cases he : tool.execute args with
        | error e => simp [hd, hf, he] at h
        | ok tr =>
          cases tr with
          | str v =>
            simp only [hd, hf, he] at h
            exact ih _ _ _ h
          | other mr =>
            cases mr with
            | ok data =>
              simp only [hd, hf, he] at h
              exact ih _ _ _ h
            | error e => simp [hd, hf, he] at h

/-- Folding an error-free stream accumulates every response, the content
    texts in order, and the componentwise usage sum, and reports no error. -/
theorem chatCompletionFold_no_error :
    ∀ (rs : List Response) (acc : Completion),
      (rs.filter (fun r => r.IsErrorResponse)) = [] →
      chatCompletionFold acc rs
        = ({ responses := acc.responses ++ rs,
             messages := acc.messages
               ++ (rs.filter (fun r => r.IsContentResponse)).map Response.Content,
             usage := ((rs.filter (fun r => r.IsUsageResponse)).map
               Response.Usage).foldl addUsage acc.usage }, none) := by
  intro rs
  induction rs with
  | nil =>
    intro acc h
    simp [chatCompletionFold]
  | cons r rest ih =>
    intro acc h
    simp only [List.filter_cons] at h
    by_cases herr : r.IsErrorResponse = true
    · simp [herr] at h
    · simp only [Bool.not_eq_true] at herr
      simp only [herr, if_neg] at h
      simp only [chatCompletionFold, herr]
      rw [ih _ h]
      by_cases hu : r.IsUsageResponse = true <;>
        by_cases hcn : r.IsContentResponse = true <;>
          simp [hu, hcn, herr, List.filter_cons]

/-- Folding a stream whose first Error event is r returns a fresh zero
    Completion together with that event's error, discarding the accumulator. -/
theorem chatCompletionFold_first_error :
    ∀ (rs : List Response) (acc : Completion) (r : Response),
      rs.find? (fun x => x.IsErrorResponse) = some r →
      chatCompletionFold acc rs = ({}, r.Error) := by
  intro rs
  induction rs with
  | nil =>
    intro acc r h
    simp at h
  | cons x rest ih =>
    intro acc r h
    by_cases hx : x.IsErrorResponse = true
    · rw [List.find?_cons_of_pos _ hx] at h
      cases h
      simp [chatCompletionFold, hx]
    · simp only [Bool.not_eq_true] at hx
      rw [List.find?_cons_of_neg _ (by simp [hx])] at h
      simp only [chatCompletionFold, hx]
      simp only [Bool.false_eq_true, if_false]
      exact ih _ _ h

/-- Under the precondition that every reply of the service carries at least
    one choice, the loop never reaches the out-of-range first-choice access. -/
theorem runIter_no_index_panic (tools : List Tool) (service : Service)
    (decode : ArgDecoder)
    (hsvc : ∀ (i : Nat) (m : List ChatMsg) (rep : Reply),
      service i m = Except.ok rep → rep.choices ≠ []) :
    ∀ (fuel idx : Nat) (messages : List ChatMsg),
      (runIter tools service decode fuel idx messages).result
        ≠ InnerResult.panicked indexPanic := by
  intro fuel
  induction fuel with
  | zero =>
    intro idx messages
    simp [runIter]
  | succ n ih =>
    intro idx messages
    simp only [runIter]
    cases h : service idx messages with
    | error e => simp
    | ok reply =>
      obtain ⟨rchoices, rusage⟩ := reply
      cases rchoices with
      | nil =>
        exact absurd rfl (hsvc idx messages _ h)
      | cons choice tail =>
        dsimp only
        split
        · split
          · rename_i messages2 heq
            exact ih (idx + 1) messages2
          · simp
          · rename_i messages2 reason heq
            have hr := processToolCalls_panic_reason tools decode _ _ _ _ heq
            subst hr
            simp only [ne_eq, InnerResult.panicked.injEq]
            decide
        · simp

/-- The trace fields other than events and outcome are those of the loop body
    regardless of how the inner closure ended. -/
theorem stream_projections (a : Agent) (service : Service) (decode : ArgDecoder)
    (messages : List Message) :
    (StreamChatCompletion a service decode messages).calls
      = (runIter a.tools service decode a.maxIterations 0 (a.buildMessages messages)).calls
    ∧ (StreamChatCompletion a service decode messages).requests
      = (runIter a.tools service decode a.maxIterations 0 (a.buildMessages messages)).requests
    ∧ (StreamChatCompletion a service decode messages).usages
      = (runIter a.tools service decode a.maxIterations 0 (a.buildMessages messages)).usages
    ∧ (StreamChatCompletion a service decode messages).finalMessages
      = (runIter a.tools service decode a.maxIterations 0 (a.buildMessages messages)).messages := by
  simp only [StreamChatCompletion]
  split <;> simp

/-- The emitted events are the loop body's sends, followed by one terminal
    Error event exactly when the inner closure returned an error. -/
theorem stream_events (a : Agent) (service : Service) (decode : ArgDecoder)
    (messages : List Message) :
    (StreamChatCompletion a service decode messages).events
      = (runIter a.tools service decode a.maxIterations 0 (a.buildMessages messages)).sends
        ++ (match (runIter a.tools service decode a.maxIterations 0
              (a.buildMessages messages)).result with
            | InnerResult.err e => [NewErrorResponse e]
            | _ => []) := by
  simp only [StreamChatCompletion]
  split <;> rename_i heq <;> simp [heq]

/-- The outcome mirrors the inner closure's result constructor for
    constructor. -/
theorem stream_outcome (a : Agent) (service : Service) (decode : ArgDecoder)
    (messages : List Message) :
    ((StreamChatCompletion a service decode messages).outcome = Outcome.normal
      ↔ (runIter a.tools service decode a.maxIterations 0
          (a.buildMessages messages)).result = InnerResult.ok)
    ∧ (∀ e, (StreamChatCompletion a service decode messages).outcome = Outcome.errored e
      ↔ (runIter a.tools service decode a.maxIterations 0
          (a.buildMessages messages)).result = InnerResult.err e)
    ∧ (∀ r, (StreamChatCompletion a service decode messages).outcome = Outcome.panicked r
      ↔ (runIter a.tools service decode a.maxIterations 0
          (a.buildMessages messages)).result = InnerResult.panicked r) := by
  simp only [StreamChatCompletion]
  split <;> rename_i heq <;> simp [heq]

/-- Claim C8: every Message built by a kind-specific constructor and every
    Response built by a kind-specific constructor answers the accessor of its
    own kind with the original payload; every accessor of a mismatched kind or
    tag is total and returns the type's zero value (empty string, zero File,
    zero Usage, nil error); and exactly one tag predicate holds per
    constructed instance. -/
theorem c8_message_response_roundtrip :
    ∀ (s c e : String) (f : File) (u : Usage),
      ((UserTextMessage s).IsText = true ∧ (UserTextMessage s).IsFile = false
        ∧ (UserTextMessage s).Text = s ∧ (UserTextMessage s).File = {}
        ∧ (UserTextMessage s).role = RoleUser)
      ∧ ((UserFileMessage f).IsFile = true ∧ (UserFileMessage f).IsText = false
        ∧ (UserFileMessage f).File = f ∧ (UserFileMessage f).Text = ""
        ∧ (UserFileMessage f).role = RoleUser)
      ∧ ((AssistantTextMessage c).IsText = true
        ∧ (AssistantTextMessage c).IsFile = false
        ∧ (AssistantTextMessage c).Text = c ∧ (AssistantTextMessage c).File = {}
        ∧ (AssistantTextMessage c).role = RoleAssistant)
      ∧ ((SystemMessage s).IsText = true ∧ (SystemMessage s).IsFile = false
        ∧ (SystemMessage s).Text = s ∧ (SystemMessage s).File = {}
        ∧ (SystemMessage s).role = RoleSystem)
      ∧ ((NewContentResponse c).IsContentResponse = true
        ∧ (NewContentResponse c).IsUsageResponse = false
        ∧ (NewContentResponse c).IsErrorResponse = false
        ∧ (NewContentResponse c).Content = c
        ∧ (NewContentResponse c).Usage = {}
        ∧ (NewContentResponse c).Error = none)
      ∧ ((NewUsageResponse u).IsUsageResponse = true
        ∧ (NewUsageResponse u).IsContentResponse = false
        ∧ (NewUsageResponse u).IsErrorResponse = false
        ∧ (NewUsageResponse u).Usage = u
        ∧ (NewUsageResponse u).Content = ""
        ∧ (NewUsageResponse u).Error = none)
      ∧ ((NewErrorResponse e).IsErrorResponse = true
        ∧ (NewErrorResponse e).IsContentResponse = false
        ∧ (NewErrorResponse e).IsUsageResponse = false
        ∧ (NewErrorResponse e).Error = some e
        ∧ (NewErrorResponse e).Content = ""
        ∧ (NewErrorResponse e).Usage = {}) := by
  intro s c e f u
  refine ⟨⟨?_, ?_, ?_, ?_, ?_⟩, ⟨?_, ?_, ?_, ?_, ?_⟩, ⟨?_, ?_, ?_, ?_, ?_⟩,
    ⟨?_, ?_, ?_, ?_, ?_⟩, ⟨?_, ?_, ?_, ?_, ?_, ?_⟩, ⟨?_, ?_, ?_, ?_, ?_, ?_⟩,
    ⟨?_, ?_, ?_, ?_, ?_, ?_⟩⟩ <;>
  simp [UserTextMessage, UserFileMessage, AssistantTextMessage, SystemMessage,
    Message.IsText, Message.IsFile, Message.Text, Message.File,
    MessageKindText, MessageKindFile, RoleUser, RoleAssistant, RoleSystem,
    NewContentResponse, NewUsageResponse, NewErrorResponse,
    Response.IsContentResponse, Response.IsUsageResponse,
    Response.IsErrorResponse, Response.Content, Response.Usage, Response.Error,
    ResponseKindContent, ResponseKindUsage, ResponseKindError]

/-- Claim C9: the initial outbound request is the configured system prompt as
    first system turn when non-empty, then the instructions as a user turn
    when non-empty, then the caller's messages converted in their given order;
    empty settings contribute no turn. -/
theorem c9_initial_request_layout (a : Agent) (service : Service)
    (decode : ArgDecoder) (messages xs ys : List Message) :
    a.buildMessages messages
      = (if a.systemPrompt != "" then [ChatMsg.system a.systemPrompt] else [])
        ++ (if a.instructions != "" then [ChatMsg.user a.instructions] else [])
        ++ convertMessages messages
    ∧ convertMessages (xs ++ ys) = convertMessages xs ++ convertMessages ys
    ∧ (1 ≤ a.maxIterations →
        (StreamChatCompletion a service decode messages).requests.head?
          = some (a.buildMessages messages)) := by
  refine ⟨?_, ?_, ?_⟩
  · simp only [Agent.buildMessages]
    split <;> split <;> simp
  · induction xs with
    | nil => simp [convertMessages]
    | cons m rest ih => simp [convertMessages, ih, List.append_assoc]
  · intro h
    obtain ⟨n, hn⟩ : ∃ n, a.maxIterations = n + 1 := by
      cases hmi : a.maxIterations with
      | zero => omega
      | succ k => exact ⟨k, rfl⟩
    have hproj := (stream_projections a service decode messages).2.1
    rw [hproj, hn, runIter_requests_head]

theorem c9_initial_request_layout_witness :
    (NewAgent "gpt-test" [WithSystemPrompt "be helpful", WithInstructions "be brief"]).buildMessages
        [UserTextMessage "hi"]
      = [ChatMsg.system "be helpful", ChatMsg.user "be brief", ChatMsg.user "hi"]
    ∧ (StreamChatCompletion (NewAgent "gpt-test" [WithSystemPrompt "be helpful", WithInstructions "be brief"])
        (fun _ _ => Except.error "down") (fun _ => Except.ok []) [UserTextMessage "hi"]).requests.head?
      = some [ChatMsg.system "be helpful", ChatMsg.user "be brief", ChatMsg.user "hi"] := by
  have h := c9_initial_request_layout
    (NewAgent "gpt-test" [WithSystemPrompt "be helpful", WithInstructions "be brief"])
    (fun _ _ => Except.error "down") (fun _ => Except.ok [])
    [UserTextMessage "hi"] [] []
  refine ⟨by decide, ?_⟩
  have h3 := h.2.2 (by decide)
  rw [h3]
  decide

/-- Claim C1 (refuted, code bug): with no registered tools and a reply
    requesting the unknown tool name missing_tool with decodable arguments,
    the lookup yields none but the execute step is not skipped: the code
    invokes Execute on the nil Tool interface value, so the run crashes with
    a nil-pointer panic right after the Usage event — it neither dispatches a
    tool, nor emits an Error event, nor continues. -/
theorem c1_unknown_tool_name_panics :
    (StreamChatCompletion (NewAgent "m" [WithMaxIterations 3])
        (fun _ _ => Except.ok
          { choices := [⟨{ content := "", toolCalls := [⟨"call_1", "missing_tool", "args"⟩] }⟩],
            usage := ⟨1, 2, 3⟩ })
        (fun _ => Except.ok [])
        [UserTextMessage "hi"]).outcome
      = Outcome.panicked nilToolPanic
    ∧ (StreamChatCompletion (NewAgent "m" [WithMaxIterations 3])
        (fun _ _ => Except.ok
          { choices := [⟨{ content := "", toolCalls := [⟨"call_1", "missing_tool", "args"⟩] }⟩],
            usage := ⟨1, 2, 3⟩ })
        (fun _ => Except.ok [])
        [UserTextMessage "hi"]).events
      = [NewUsageResponse ⟨1, 2, 3⟩]
    ∧ (StreamChatCompletion (NewAgent "m" [WithMaxIterations 3])
        (fun _ _ => Except.ok
          { choices := [⟨{ content := "", toolCalls := [⟨"call_1", "missing_tool", "args"⟩] }⟩],
            usage := ⟨1, 2, 3⟩ })
        (fun _ => Except.ok [])
        [UserTextMessage "hi"]).calls = 1 := by
  decide

/-- Claim C10: the loop body reads the first element of a reply's choice list
    without an emptiness check: whenever the first remote call succeeds with a
    choiceless reply the run hits the out-of-range access (so the access is
    reachable), while under the precondition that every reply carries at least
    one choice it is never hit. -/
theorem c10_unguarded_first_choice (a : Agent) (service : Service)
    (decode : ArgDecoder) (messages : List Message) (r : Reply) :
    (1 ≤ a.maxIterations →
      service 0 (a.buildMessages messages) = Except.ok r →
      r.choices = [] →
      (StreamChatCompletion a service decode messages).outcome
        = Outcome.panicked indexPanic
      ∧ (StreamChatCompletion a service decode messages).calls = 1)
    ∧ ((∀ (i : Nat) (m : List ChatMsg) (rep : Reply),
          service i m = Except.ok rep → rep.choices ≠ []) →
        (StreamChatCompletion a service decode messages).outcome
          ≠ Outcome.panicked indexPanic) := by
  constructor
  · intro h hsvc hchoices
    obtain ⟨n, hn⟩ : ∃ n, a.maxIterations = n + 1 := by
      cases hmi : a.maxIterations with
      | zero => omega
      | succ k => exact ⟨k, rfl⟩
    have hrun : (runIter a.tools service decode a.maxIterations 0
        (a.buildMessages messages)).result = InnerResult.panicked indexPanic
        ∧ (runIter a.tools service decode a.maxIterations 0
        (a.buildMessages messages)).calls = 1 := by
      rw [hn]
      simp only [runIter, hsvc]
      simp [hchoices]
    refine ⟨((stream_outcome a service decode messages).2.2 indexPanic).mpr hrun.1, ?_⟩
    rw [(stream_projections a service decode messages).1, hrun.2]
  · intro hpre hcontra
    have := ((stream_outcome a service decode messages).2.2 indexPanic).mp hcontra
    exact runIter_no_index_panic a.tools service decode hpre a.maxIterations 0
      (a.buildMessages messages) this

theorem c10_unguarded_first_choice_witness :
    ((StreamChatCompletion (NewAgent "m" []) (fun _ _ => Except.ok { choices := [], usage := ⟨1, 1, 2⟩ })
        (fun _ => Except.ok []) [UserTextMessage "hi"]).outcome
      = Outcome.panicked indexPanic
    ∧ (StreamChatCompletion (NewAgent "m" []) (fun _ _ => Except.ok { choices := [], usage := ⟨1, 1, 2⟩ })
        (fun _ => Except.ok []) [UserTextMessage "hi"]).calls = 1)
    ∧ (StreamChatCompletion (NewAgent "m" [])
        (fun _ _ => Except.ok { choices := [⟨{ content := "x" }⟩], usage := ⟨1, 1, 2⟩ })
        (fun _ => Except.ok []) [UserTextMessage "hi"]).outcome
      ≠ Outcome.panicked indexPanic := by
  constructor
  · exact (c10_unguarded_first_choice (NewAgent "m" [])
      (fun _ _ => Except.ok { choices := [], usage := ⟨1, 1, 2⟩ })
      (fun _ => Except.ok []) [UserTextMessage "hi"] { choices := [], usage := ⟨1, 1, 2⟩ }).1
      (by decide) rfl rfl
  · exact (c10_unguarded_first_choice (NewAgent "m" [])
      (fun _ _ => Except.ok { choices := [⟨{ content := "x" }⟩], usage := ⟨1, 1, 2⟩ })
      (fun _ => Except.ok []) [UserTextMessage "hi"]
      { choices := [], usage := ⟨0, 0, 0⟩ }).2
      (by intro i m rep h; cases h; simp)

/-- Claim C3: on every run the channel is closed exactly once, as the last
    channel operation on every exit path; the stream carries exactly one Error
    event when the inner closure failed (from the remote call, argument
    decoding, Execute, or result marshalling) and none otherwise; when an
    error occurs the Error event is the final event, so nothing — in
    particular no further remote call — follows it; and no reply is ever
    requested twice: at most one remote call is made beyond the successful
    replies already received. -/
theorem c3_error_terminates_and_single_close (a : Agent) (service : Service)
    (decode : ArgDecoder) (messages : List Message) :
    ((runChanOps a service decode messages).filter ChanOp.isClose).length = 1
    ∧ (runChanOps a service decode messages).getLast? = some ChanOp.close
    ∧ ((StreamChatCompletion a service decode messages).events.filter
        (fun r => r.IsErrorResponse)).length
      = (match (StreamChatCompletion a service decode messages).outcome with
         | Outcome.errored _ => 1
         | _ => 0)
    ∧ (∀ e, (StreamChatCompletion a service decode messages).outcome = Outcome.errored e →
        (StreamChatCompletion a service decode messages).events.getLast?
          = some (NewErrorResponse e))
    ∧ (StreamChatCompletion a service decode messages).calls
      ≤ (StreamChatCompletion a service decode messages).usages.length + 1 := by
  have hsendmap : ∀ es : List Response,
      (es.map ChanOp.send).filter ChanOp.isClose = [] := by
    intro es
    induction es with
    | nil => simp
    | cons x xs ih => simp [ChanOp.isClose, ih]
  obtain ⟨h1, h2, h3, h4, h5, h6⟩ :=
    runIter_inv a.tools service decode a.maxIterations 0 (a.buildMessages messages)
  obtain ⟨hc, hreq, hus, hfm⟩ := stream_projections a service decode messages
  obtain ⟨ho1, ho2, ho3⟩ := stream_outcome a service decode messages
  refine ⟨?_, ?_, ?_, ?_, ?_⟩
  · simp [runChanOps, List.filter_append, hsendmap, ChanOp.isClose]
  · simp [runChanOps, List.getLast?_concat]
  · rw [stream_events]
    cases hres : (runIter a.tools service decode a.maxIterations 0
        (a.buildMessages messages)).result with
    | ok =>
      have ho := ho1.mpr hres
      rw [ho]
      simp [List.filter_append, h1]
    | err e =>
      have ho := (ho2 e).mpr hres
      rw [ho]
      simp [List.filter_append, h1]
    | panicked r =>
      have ho := (ho3 r).mpr hres
      rw [ho]
      simp [List.filter_append, h1]
  · intro e he
    have hres := (ho2 e).mp he
    rw [stream_events, hres]
    simp [List.getLast?_concat]
  · rw [hc, hus]
    exact h4

theorem c3_error_terminates_and_single_close_witness :
    ((runChanOps (NewAgent "m" []) (fun _ _ => Except.error "boom")
        (fun _ => Except.ok []) [UserTextMessage "q"]).filter ChanOp.isClose).length = 1
    ∧ (StreamChatCompletion (NewAgent "m" []) (fun _ _ => Except.error "boom")
        (fun _ => Except.ok []) [UserTextMessage "q"]).events.getLast?
      = some (NewErrorResponse "boom") := by
  refine ⟨(c3_error_terminates_and_single_close (NewAgent "m" [])
    (fun _ _ => Except.error "boom") (fun _ => Except.ok []) [UserTextMessage "q"]).1, ?_⟩
  exact (c3_error_terminates_and_single_close (NewAgent "m" [])
    (fun _ _ => Except.error "boom") (fun _ => Except.ok [])
    [UserTextMessage "q"]).2.2.2.1 "boom" rfl

/-- Claim C4: the loop never makes more than maxIterations remote calls; the
    default without options is 100; and with maxIterations = 1 and a service
    whose reply requests tool calls that all dispatch cleanly, exactly one
    remote call is made and the run ends silently — normal outcome, no Error
    event — rather than reporting a failure. -/
theorem c4_iteration_cap (a : Agent) (service : Service) (decode : ArgDecoder)
    (messages : List Message) (model : String) (r : Reply) (ch : Choice)
    (tail : List Choice) :
    (StreamChatCompletion a service decode messages).calls ≤ a.maxIterations
    ∧ (NewAgent model []).maxIterations = 100
    ∧ (a.maxIterations = 1 →
        service 0 (a.buildMessages messages) = Except.ok r →
        r.choices = ch :: tail →
        ch.message.toolCalls ≠ [] →
        (∀ c ∈ ch.message.toolCalls, callOk a.tools decode c = true) →
        (StreamChatCompletion a service decode messages).calls = 1
        ∧ (StreamChatCompletion a service decode messages).outcome = Outcome.normal
        ∧ ((StreamChatCompletion a service decode messages).events.filter
            (fun x => x.IsErrorResponse)).length = 0) := by
  obtain ⟨h1, h2, h3, h4, h5, h6⟩ :=
    runIter_inv a.tools service decode a.maxIterations 0 (a.buildMessages messages)
  obtain ⟨hc, hreq, hus, hfm⟩ := stream_projections a service decode messages
  obtain ⟨ho1, ho2, ho3⟩ := stream_outcome a service decode messages
  refine ⟨?_, ?_, ?_⟩
  · rw [hc]
    exact h3
  · simp [NewAgent]
  · intro hmi hsvc hchoices hne hcallok
    obtain ⟨rchoices, rusage⟩ := r
    subst hchoices
    obtain ⟨c0, cs0, htc⟩ : ∃ x xs, ch.message.toolCalls = x :: xs := by
      cases h : ch.message.toolCalls with
      | nil => exact absurd h hne
      | cons x xs => exact ⟨x, xs, rfl⟩
    rw [htc] at hcallok
    have hrun : (runIter a.tools service decode a.maxIterations 0
        (a.buildMessages messages)).result = InnerResult.ok
        ∧ (runIter a.tools service decode a.maxIterations 0
        (a.buildMessages messages)).calls = 1 := by
      rw [hmi]
      simp only [runIter, hsvc]
      rw [htc]
      rw [processToolCalls_all_ok a.tools decode (c0 :: cs0) _ hcallok]
      simp [runIter]
    refine ⟨by rw [hc, hrun.2], ho1.mpr hrun.1, ?_⟩
    rw [stream_events, hrun.1]
    simp [List.filter_append, h1]

theorem c4_iteration_cap_witness :
    (StreamChatCompletion
        (NewAgent "m" [WithTools [⟨"echo", "", {}, fun _ => Except.ok (ToolResult.str "done")⟩],
          WithMaxIterations 1])
        (fun _ _ => Except.ok
          { choices := [⟨{ content := "", toolCalls := [⟨"c1", "echo", "x"⟩] }⟩],
            usage := ⟨1, 1, 2⟩ })
        (fun _ => Except.ok []) [UserTextMessage "q"]).calls = 1
    ∧ (StreamChatCompletion
        (NewAgent "m" [WithTools [⟨"echo", "", {}, fun _ => Except.ok (ToolResult.str "done")⟩],
          WithMaxIterations 1])
        (fun _ _ => Except.ok
          { choices := [⟨{ content := "", toolCalls := [⟨"c1", "echo", "x"⟩] }⟩],
            usage := ⟨1, 1, 2⟩ })
        (fun _ => Except.ok []) [UserTextMessage "q"]).outcome = Outcome.normal
    ∧ ((StreamChatCompletion
        (NewAgent "m" [WithTools [⟨"echo", "", {}, fun _ => Except.ok (ToolResult.str "done")⟩],
          WithMaxIterations 1])
        (fun _ _ => Except.ok
          { choices := [⟨{ content := "", toolCalls := [⟨"c1", "echo", "x"⟩] }⟩],
            usage := ⟨1, 1, 2⟩ })
        (fun _ => Except.ok []) [UserTextMessage "q"]).events.filter
          (fun x => x.IsErrorResponse)).length = 0 := by
  exact (c4_iteration_cap
    (NewAgent "m" [WithTools [⟨"echo", "", {}, fun _ => Except.ok (ToolResult.str "done")⟩],
      WithMaxIterations 1])
    (fun _ _ => Except.ok
      { choices := [⟨{ content := "", toolCalls := [⟨"c1", "echo", "x"⟩] }⟩],
        usage := ⟨1, 1, 2⟩ })
    (fun _ => Except.ok []) [UserTextMessage "q"] "m"
    { choices := [⟨{ content := "", toolCalls := [⟨"c1", "echo", "x"⟩] }⟩], usage := ⟨1, 1, 2⟩ }
    ⟨{ content := "", toolCalls := [⟨"c1", "echo", "x"⟩] }⟩ []).2.2
    rfl rfl rfl (by decide) (by decide)

/-- Claim C5: every iteration's successful reply contributes exactly one Usage
    event carrying that reply's token counts, in order; and on a normal run
    the non-streaming wrapper's aggregate usage is the componentwise sum of
    the per-iteration Usage events, with one such event per remote call. -/
theorem c5_usage_accumulation (a : Agent) (service : Service) (decode : ArgDecoder)
    (messages : List Message) :
    ((StreamChatCompletion a service decode messages).events.filter
        (fun r => r.IsUsageResponse))
      = (StreamChatCompletion a service decode messages).usages.map NewUsageResponse
    ∧ ((StreamChatCompletion a service decode messages).outcome = Outcome.normal →
        (StreamChatCompletion a service decode messages).usages.length
          = (StreamChatCompletion a service decode messages).calls
        ∧ (ChatCompletion a service decode messages).1.usage
          = (StreamChatCompletion a service decode messages).usages.foldl addUsage {}) := by
  obtain ⟨h1, h2, h3, h4, h5, h6⟩ :=
    runIter_inv a.tools service decode a.maxIterations 0 (a.buildMessages messages)
  obtain ⟨hc, hreq, hus, hfm⟩ := stream_projections a service decode messages
  obtain ⟨ho1, ho2, ho3⟩ := stream_outcome a service decode messages
  constructor
  · rw [stream_events, hus]
    cases hres : (runIter a.tools service decode a.maxIterations 0
        (a.buildMessages messages)).result <;>
      simp [List.filter_append, h2]
  · intro hnorm
    have hres := ho1.mp hnorm
    refine ⟨by rw [hc, hus]; exact (h5 hres).symm, ?_⟩
    simp only [ChatCompletion]
    rw [stream_events, hres]
    simp only [List.append_nil]
    rw [chatCompletionFold_no_error _ _ h1]
    rw [hus, h2]
    simp only [List.map_map]
    have hcomp : (Response.Usage ∘ NewUsageResponse) = id :=
      funext fun u => usage_of_newUsage u
    rw [hcomp, List.map_id]

theorem c5_usage_accumulation_witness :
    ((StreamChatCompletion (NewAgent "m" [])
        (fun _ _ => Except.ok { choices := [⟨{ content := "4" }⟩], usage := ⟨10, 2, 12⟩ })
        (fun _ => Except.ok []) [UserTextMessage "q"]).events.filter
          (fun r => r.IsUsageResponse))
      = [NewUsageResponse ⟨10, 2, 12⟩]
    ∧ (ChatCompletion (NewAgent "m" [])
        (fun _ _ => Except.ok { choices := [⟨{ content := "4" }⟩], usage := ⟨10, 2, 12⟩ })
        (fun _ => Except.ok []) [UserTextMessage "q"]).1.usage = ⟨10, 2, 12⟩ := by
  have h := c5_usage_accumulation (NewAgent "m" [])
    (fun _ _ => Except.ok { choices := [⟨{ content := "4" }⟩], usage := ⟨10, 2, 12⟩ })
    (fun _ => Except.ok []) [UserTextMessage "q"]
  constructor
  · rw [h.1]
    decide
  · rw [(h.2 rfl).2]
    decide

/-- Claim C6: a single reply without tool calls yields exactly one Usage event
    followed by exactly one Content event when and only when the reply text is
    non-empty, then the run ends normally after the single remote call, and
    the non-streaming wrapper returns the content list and that reply's usage
    with no error. -/
theorem c6_single_reply_stream_shape (a : Agent) (service : Service)
    (decode : ArgDecoder) (messages : List Message) (r : Reply) (ch : Choice)
    (tail : List Choice)
    (hfuel : 1 ≤ a.maxIterations)
    (hsvc : service 0 (a.buildMessages messages) = Except.ok r)
    (hchoices : r.choices = ch :: tail)
    (hnt : ch.message.toolCalls = []) :
    (StreamChatCompletion a service decode messages).events
      = NewUsageResponse r.usage
        :: (if ch.message.content != "" then [NewContentResponse ch.message.content]
            else [])
    ∧ (StreamChatCompletion a service decode messages).outcome = Outcome.normal
    ∧ (StreamChatCompletion a service decode messages).calls = 1
    ∧ (ChatCompletion a service decode messages).2 = none
    ∧ (ChatCompletion a service decode messages).1.messages
      = (if ch.message.content != "" then [ch.message.content] else [])
    ∧ (ChatCompletion a service decode messages).1.usage = addUsage {} r.usage := by
  obtain ⟨rchoices, rusage⟩ := r
  subst hchoices
  obtain ⟨ho1, ho2, ho3⟩ := stream_outcome a service decode messages
  obtain ⟨hc, hreq, hus, hfm⟩ := stream_projections a service decode messages
  obtain ⟨n, hn⟩ : ∃ n, a.maxIterations = n + 1 := by
    cases hmi : a.maxIterations with
    | zero => omega
    | succ k => exact ⟨k, rfl⟩
  have hiter : runIter a.tools service decode a.maxIterations 0 (a.buildMessages messages)
      = { sends := NewUsageResponse rusage
            :: (if ch.message.content != "" then [NewContentResponse ch.message.content]
                else []),
          requests := [a.buildMessages messages], usages := [rusage], calls := 1,
          messages :=
            if ch.message.content != ""
            then a.buildMessages messages
              ++ [ChatMsg.assistant ch.message.content ch.message.toolCalls]
            else a.buildMessages messages,
          result := InnerResult.ok } := by
    rw [hn]
    simp only [runIter, hsvc]
    rw [hnt]
    simp
  have hevents : (StreamChatCompletion a service decode messages).events
      = NewUsageResponse rusage
        :: (if ch.message.content != "" then [NewContentResponse ch.message.content]
            else []) := by
    rw [stream_events, hiter]
    simp
  refine ⟨hevents, ho1.mpr (by rw [hiter]), by rw [hc, hiter], ?_, ?_, ?_⟩ <;>
    simp only [ChatCompletion] <;> rw [hevents] <;>
    by_cases hcnt : (ch.message.content != "") = true <;>
      simp [hcnt, chatCompletionFold]

theorem c6_single_reply_stream_shape_witness :
    (StreamChatCompletion (NewAgent "m" [])
        (fun _ _ => Except.ok { choices := [⟨{ content := "4" }⟩], usage := ⟨10, 2, 12⟩ })
        (fun _ => Except.ok []) [UserTextMessage "What is 2+2?"]).events
      = [NewUsageResponse ⟨10, 2, 12⟩, NewContentResponse "4"]
    ∧ (ChatCompletion (NewAgent "m" [])
        (fun _ _ => Except.ok { choices := [⟨{ content := "4" }⟩], usage := ⟨10, 2, 12⟩ })
        (fun _ => Except.ok []) [UserTextMessage "What is 2+2?"]).1.messages = ["4"]
    ∧ (ChatCompletion (NewAgent "m" [])
        (fun _ _ => Except.ok { choices := [⟨{ content := "4" }⟩], usage := ⟨10, 2, 12⟩ })
        (fun _ => Except.ok []) [UserTextMessage "What is 2+2?"]).1.usage.totalTokens = 12
    ∧ (ChatCompletion (NewAgent "m" [])
        (fun _ _ => Except.ok { choices := [⟨{ content := "4" }⟩], usage := ⟨10, 2, 12⟩ })
        (fun _ => Except.ok []) [UserTextMessage "What is 2+2?"]).2 = none := by
  have h := c6_single_reply_stream_shape (NewAgent "m" [])
    (fun _ _ => Except.ok { choices := [⟨{ content := "4" }⟩], usage := ⟨10, 2, 12⟩ })
    (fun _ => Except.ok []) [UserTextMessage "What is 2+2?"]
    { choices := [⟨{ content := "4" }⟩], usage := ⟨10, 2, 12⟩ }
    ⟨{ content := "4" }⟩ [] (by decide) rfl rfl rfl
  refine ⟨?_, ?_, ?_, h.2.2.2.1⟩
  · rw [h.1]
    decide
  · rw [h.2.2.2.2.1]
    decide
  · rw [h.2.2.2.2.2]
    decide

/-- Claim C7: whenever the consumed event stream contains an Error event, the
    non-streaming wrapper returns that (first) error together with a fresh
    zero-valued Completion, discarding the content texts and usage accumulated
    before the error; in particular any errored run yields exactly that
    error and the empty Completion. -/
theorem c7_wrapper_discards_partials_on_error :
    (∀ (rs : List Response) (acc : Completion) (r : Response),
      rs.find? (fun x => x.IsErrorResponse) = some r →
      chatCompletionFold acc rs = ({}, r.Error))
    ∧ (∀ (a : Agent) (service : Service) (decode : ArgDecoder)
        (messages : List Message) (e : String),
        (StreamChatCompletion a service decode messages).outcome = Outcome.errored e →
        ChatCompletion a service decode messages = ({}, some e)) := by
  constructor
  · exact chatCompletionFold_first_error
  · intro a service decode messages e he
    obtain ⟨h1, h2, h3, h4, h5, h6⟩ :=
      runIter_inv a.tools service decode a.maxIterations 0 (a.buildMessages messages)
    have hres := ((stream_outcome a service decode messages).2.1 e).mp he
    simp only [ChatCompletion]
    rw [stream_events, hres]
    have hfind : ((runIter a.tools service decode a.maxIterations 0
        (a.buildMessages messages)).sends
          ++ [NewErrorResponse e]).find? (fun x => x.IsErrorResponse)
        = some (NewErrorResponse e) := by
      rw [List.find?_append]
      have hnone : (runIter a.tools service decode a.maxIterations 0
          (a.buildMessages messages)).sends.find? (fun x => x.IsErrorResponse) = none := by
        rw [List.find?_eq_none]
        intro x hx
        have := List.filter_eq_nil_iff.mp h1 x hx
        simpa using this
      rw [hnone]
      simp
    rw [chatCompletionFold_first_error _ _ _ hfind]
    simp

theorem c7_wrapper_discards_partials_on_error_witness :
    chatCompletionFold {}
        [NewUsageResponse ⟨1, 1, 2⟩, NewContentResponse "partial", NewErrorResponse "boom"]
      = ({}, some "boom")
    ∧ ChatCompletion (NewAgent "m" []) (fun _ _ => Except.error "down")
        (fun _ => Except.ok []) [UserTextMessage "q"] = ({}, some "down") := by
  constructor
  · rw [c7_wrapper_discards_partials_on_error.1
      [NewUsageResponse ⟨1, 1, 2⟩, NewContentResponse "partial", NewErrorResponse "boom"]
      {} (NewErrorResponse "boom") (by decide)]
    decide
  · exact c7_wrapper_discards_partials_on_error.2 (NewAgent "m" [])
      (fun _ _ => Except.error "down") (fun _ => Except.ok [])
      [UserTextMessage "q"] "down" rfl

/-- Claim C2: when a reply carries N tool-call requests that all resolve to
    registered tools and dispatch cleanly, exactly N tool-result turns are
    appended to the working history after the model's own turn, in request
    order and each keyed to its originating call identifier, so the next
    outbound request is the previous one plus the model turn plus the N tool
    turns, and its length is the previous length plus one plus N. -/
theorem c2_tool_results_appended (a : Agent) (service : Service)
    (decode : ArgDecoder) (messages : List Message) (r : Reply) (ch : Choice)
    (tail : List Choice)
    (hfuel : 2 ≤ a.maxIterations)
    (hsvc : service 0 (a.buildMessages messages) = Except.ok r)
    (hchoices : r.choices = ch :: tail)
    (hne : ch.message.toolCalls ≠ [])
    (hcallok : ∀ c ∈ ch.message.toolCalls, callOk a.tools decode c = true) :
    (StreamChatCompletion a service decode messages).requests.take 2
      = [a.buildMessages messages,
         a.buildMessages messages
           ++ [ChatMsg.assistant ch.message.content ch.message.toolCalls]
           ++ ch.message.toolCalls.map
                (fun c => ChatMsg.tool (callResultText a.tools decode c) c.id)]
    ∧ (a.buildMessages messages
           ++ [ChatMsg.assistant ch.message.content ch.message.toolCalls]
           ++ ch.message.toolCalls.map
                (fun c => ChatMsg.tool (callResultText a.tools decode c) c.id)).length
        = (a.buildMessages messages).length + 1 + ch.message.toolCalls.length := by
  obtain ⟨rchoices, rusage⟩ := r
  subst hchoices
  obtain ⟨hc, hreq, hus, hfm⟩ := stream_projections a service decode messages
  obtain ⟨n, hn⟩ : ∃ n, a.maxIterations = n + 1 + 1 := ⟨a.maxIterations - 2, by omega⟩
  obtain ⟨c0, cs0, htc⟩ : ∃ x xs, ch.message.toolCalls = x :: xs := by
    cases h : ch.message.toolCalls with
    | nil => exact absurd h hne
    | cons x xs => exact ⟨x, xs, rfl⟩
  rw [htc] at hcallok
  have hstep : (runIter a.tools service decode a.maxIterations 0
      (a.buildMessages messages)).requests
      = a.buildMessages messages
        :: (runIter a.tools service decode (n + 1) 1
            ((a.buildMessages messages
              ++ [ChatMsg.assistant ch.message.content (c0 :: cs0)])
              ++ (c0 :: cs0).map
                (fun c => ChatMsg.tool (callResultText a.tools decode c) c.id))).requests := by
    rw [hn]
    simp only [runIter, hsvc]
    rw [htc]
    rw [processToolCalls_all_ok a.tools decode (c0 :: cs0) _ hcallok]
    simp
  have hhead := runIter_requests_head a.tools service decode n 1
    ((a.buildMessages messages ++ [ChatMsg.assistant ch.message.content (c0 :: cs0)])
      ++ (c0 :: cs0).map (fun c => ChatMsg.tool (callResultText a.tools decode c) c.id))
  constructor
  · rw [hreq, hstep]
    cases hrr : (runIter a.tools service decode (n + 1) 1
        ((a.buildMessages messages
          ++ [ChatMsg.assistant ch.message.content (c0 :: cs0)])
          ++ (c0 :: cs0).map
            (fun c => ChatMsg.tool (callResultText a.tools decode c) c.id))).requests with
    | nil => rw [hrr] at hhead; simp at hhead
    | cons y ys =>
      rw [hrr] at hhead
      simp at hhead
      rw [htc, hhead]
      simp [List.append_assoc]
  · rw [htc]
    simp
    omega

theorem c2_tool_results_appended_witness :
    (StreamChatCompletion
        (NewAgent "m" [WithTools [⟨"echo", "", {}, fun _ => Except.ok (ToolResult.str "done")⟩]])
        (fun _ _ => Except.ok
          { choices :=
              [⟨{ content := "", toolCalls := [⟨"c1", "echo", "x"⟩, ⟨"c2", "echo", "y"⟩] }⟩],
            usage := ⟨1, 1, 2⟩ })
        (fun _ => Except.ok []) [UserTextMessage "q"]).requests.take 2
      = [[ChatMsg.user "q"],
         [ChatMsg.user "q",
          ChatMsg.assistant "" [⟨"c1", "echo", "x"⟩, ⟨"c2", "echo", "y"⟩],
          ChatMsg.tool "done" "c1", ChatMsg.tool "done" "c2"]] := by
  rw [(c2_tool_results_appended
    (NewAgent "m" [WithTools [⟨"echo", "", {}, fun _ => Except.ok (ToolResult.str "done")⟩]])
    (fun _ _ => Except.ok
      { choices :=
          [⟨{ content := "", toolCalls := [⟨"c1", "echo", "x"⟩, ⟨"c2", "echo", "y"⟩] }⟩],
        usage := ⟨1, 1, 2⟩ })
    (fun _ => Except.ok []) [UserTextMessage "q"]
    { choices :=
        [⟨{ content := "", toolCalls := [⟨"c1", "echo", "x"⟩, ⟨"c2", "echo", "y"⟩] }⟩],
      usage := ⟨1, 1, 2⟩ }
    ⟨{ content := "", toolCalls := [⟨"c1", "echo", "x"⟩, ⟨"c2", "echo", "y"⟩] }⟩ []
    (by decide) rfl rfl (by decide) (by decide)).1]
  decide
